import Mathlib

/-!
# Verification of the qem-bot incident-to-job decision engine

A shallow embedding of the core of the `qem-bot` repository:
`openqabot/types/incident.py` (incident construction and channel parsing),
`openqabot/loader/repohash.py` (revision resolution) and
`openqabot/types/incidents.py` (the scheduling pipeline `Incidents.__call__`).

Python strings are modelled as Lean `String` (a list of characters), and the
string operations used by the source (`str.split(":")`, `str.startswith`,
`str.endswith`, `in`, `sorted`) are re-implemented structurally below so that
every definition evaluates inside the kernel.

Network effects (repository metadata fetches, dashboard queries, cloud-image
lookups) are modelled as explicit oracle parameters: the source performs an
HTTP request and inspects the response, so the embedding receives the
response's relevant content as a function argument.
-/

/-! ## String primitives (models of the Python `str` operations used) -/

/-- `charsStartsWith s p` : does the character list `s` start with `p`?
Model of Python `str.startswith`. -/
def charsStartsWith : List Char → List Char → Bool
  | _, [] => true
  | [], _ :: _ => false
  | c :: cs, p :: ps => c == p && charsStartsWith cs ps

/-- Python `s.startswith(p)`. -/
def pyStartswith (s p : String) : Bool :=
  charsStartsWith s.data p.data

/-- Python `s.endswith(p)`. -/
def pyEndswith (s p : String) : Bool :=
  charsStartsWith s.data.reverse p.data.reverse

/-- Auxiliary for `pySplitColon`: accumulates the current field (reversed). -/
def splitColonAux : List Char → List Char → List String
  | [], acc => [⟨acc.reverse⟩]
  | c :: cs, acc =>
    if c == ':' then ⟨acc.reverse⟩ :: splitColonAux cs [] else splitColonAux cs (c :: acc)

/-- Python `s.split(":")`. -/
def pySplitColon (s : String) : List String :=
  splitColonAux s.data []

/-- Substring test, model of Python `pat in s`. -/
def charsContains : List Char → List Char → Bool
  | [], pat => pat.isEmpty
  | c :: cs, pat => charsStartsWith (c :: cs) pat || charsContains cs pat

/-- Python `pat in s` for strings. -/
def pyContains (s pat : String) : Bool :=
  charsContains s.data pat.data

/-- Code-point lexicographic order on character lists, model of Python `<`
on strings (used by `sorted`). -/
def charsLt : List Char → List Char → Bool
  | [], [] => false
  | [], _ :: _ => true
  | _ :: _, [] => false
  | a :: as, b :: bs => a < b || (a == b && charsLt as bs)

/-- Python `a < b` on strings. -/
def pyStrLt (a b : String) : Bool :=
  charsLt a.data b.data

/-- Stable insertion of a string into an ascending list (by `pyStrLt`). -/
def insertStr (x : String) : List String → List String
  | [] => [x]
  | y :: ys => if pyStrLt x y then x :: y :: ys else y :: insertStr x ys

/-- Python `sorted` on a list of strings (ascending, stable). -/
def pySortedStr : List String → List String
  | [] => []
  | x :: xs => insertStr x (pySortedStr xs)

/-- Stable insertion of a string into a list ascending by length. -/
def insertByLen (x : String) : List String → List String
  | [] => [x]
  | y :: ys => if x.data.length ≤ y.data.length then x :: y :: ys else y :: insertByLen x ys

/-- Python `sorted(xs, key=len)` (ascending by length, stable). -/
def pySortedByLen : List String → List String
  | [] => []
  | x :: xs => insertByLen x (pySortedByLen xs)

/-- Decimal digits of a natural number, with structural fuel. -/
def natDigits : Nat → Nat → List Char
  | 0, _ => []
  | fuel + 1, n =>
    if n < 10 then [Char.ofNat (48 + n)]
    else natDigits fuel (n / 10) ++ [Char.ofNat (48 + n % 10)]

/-- Python `str(n)` for a non-negative integer. -/
def pyStrOfNat (n : Nat) : String :=
  ⟨natDigits (n + 1) n⟩

/-! ## Value types (`openqabot/types/types.py`) -/

/-- `Repos` NamedTuple from `openqabot/types/types.py`: product, version, arch,
and an optional product_version defaulting to the empty string. -/
structure Repos where
  product : String
  version : String
  arch : String
  product_version : String := ""
deriving DecidableEq, Repr

/-- `ArchVer` NamedTuple from `openqabot/types/types.py`. -/
structure ArchVer where
  arch : String
  version : String
deriving DecidableEq, Repr

/-- `ProdVer` NamedTuple from `openqabot/types/types.py` (the
`product_version` field is not used by the embedded code paths). -/
structure ProdVer where
  product : String
  version : String
deriving DecidableEq, Repr

/-! ## Channel parsing (`Incident.__init__`, `openqabot/types/incident.py`) -/

/-- `r.split(":")[2:]` as used in `Incident.__init__`. -/
def chanFields (r : String) : List String :=
  (pySplitColon r).drop 2

/-- The first channel comprehension of `Incident.__init__`
(`openqabot/types/incident.py` lines 53-65): entries whose fields after
`SUSE:Updates` are exactly `(product, version, arch)`, with the
`SLE-Module-Development-Tools-OBS` product dropped. -/
def entry3 (r : String) : Option Repos :=
  match chanFields r with
  | [p, v, a] =>
    if p == "SLE-Module-Development-Tools-OBS" then none
    else some { product := p, version := v, arch := a }
  | _ => none

/-- The second channel comprehension (lines 68-80): entries with exactly
`(product, version)`, arch defaulted to `x86_64` (no product filter). -/
def entry2 (r : String) : Option Repos :=
  match chanFields r with
  | [p, v] => some { product := p, version := v, arch := "x86_64" }
  | _ => none

/-- The final filter (lines 82-90): drop `SLE-Module-SUSE-Manager-Server`
on `aarch64`. -/
def notSumaAarch (chan : Repos) : Bool :=
  !(chan.product == "SLE-Module-SUSE-Manager-Server" && chan.arch == "aarch64")

/-- The channel list built by `Incident.__init__` (lines 53-90): keep
strings starting with `SUSE:Updates`, list the three-field entries, then
the two-field entries, then apply the Manager-Server/aarch64 filter. -/
def parse_channels (channels : List String) : List Repos :=
  let upd := channels.filter (fun r => pyStartswith r "SUSE:Updates")
  (upd.filterMap entry3 ++ upd.filterMap entry2).filter notSumaAarch

/-! ## Version truncation (`version_pattern`, `openqabot/types/incident.py`) -/

/-- Longest digit prefix of a character list, with the remainder. -/
def digitsPrefixAux : List Char → List Char × List Char
  | [] => ([], [])
  | c :: cs =>
    if c.isDigit then
      let r := digitsPrefixAux cs
      (c :: r.1, r.2)
    else ([], c :: cs)

/-- `re.match(r"(\d+(?:[.-](?:SP)?\d+)?)", s)`: the matched text, if the
string starts with a digit.  Greedy: after the leading digits an optional
`.`/`-` separator followed by an optional `SP` and further digits is
consumed when possible. -/
def version_match (s : String) : Option String :=
  match digitsPrefixAux s.data with
  | ([], _) => none
  | (d1, rest) =>
    let tail : Option (List Char) :=
      match rest with
      | sep :: r2 =>
        if sep == '.' || sep == '-' then
          match r2 with
          | 'S' :: 'P' :: r3 =>
            match digitsPrefixAux r3 with
            | ([], _) =>
              match digitsPrefixAux r2 with
              | ([], _) => none
              | (d2, _) => some (sep :: d2)
            | (d2, _) => some (sep :: 'S' :: 'P' :: d2)
          | _ =>
            match digitsPrefixAux r2 with
            | ([], _) => none
            | (d2, _) => some (sep :: d2)
        else none
      | [] => none
    match tail with
    | some t => some ⟨d1 ++ t⟩
    | none => some ⟨d1⟩

/-- The version string used to group a channel into an `ArchVer`
(`Incident._rev`): the truncated version when the pattern matches at the
start, otherwise the full version. -/
def truncVersion (v : String) : String :=
  match version_match v with
  | some m => m
  | none => v

/-! ## Revision resolution (`get_max_revision`, `openqabot/loader/repohash.py`) -/

/-- Outcome of fetching one repository's metadata, abstracting the HTTP
request, XML parsing and revision extraction in `get_max_revision`. -/
inductive FetchOutcome
  | httpNotOk
  | netError
  | noRevisionField
  | revision (n : Nat)
deriving DecidableEq, Repr

/-- The single error raised by `get_max_revision` (`NoRepoFoundError`). -/
inductive RepoError
  | noRepoFound
deriving DecidableEq, Repr

/-- The loop of `get_max_revision`, accumulating `max_rev`. -/
def get_max_revision_go {α : Type} (fetch : α → FetchOutcome) :
    List α → Nat → Except RepoError Nat
  | [], acc => .ok acc
  | r :: rest, acc =>
    match fetch r with
    | .httpNotOk => get_max_revision_go fetch rest acc
    | .netError => .error .noRepoFound
    | .noRevisionField => .error .noRepoFound
    | .revision n => get_max_revision_go fetch rest (max acc n)

/-- `get_max_revision` (`openqabot/loader/repohash.py` lines 37-80):
start from 0; an HTTP non-success skips the repository; a network/parse
error or a missing revision element raises `NoRepoFoundError`; otherwise
the revision is folded in with `max`. -/
def get_max_revision {α : Type} (fetch : α → FetchOutcome) (repos : List α) :
    Except RepoError Nat :=
  get_max_revision_go fetch repos 0

/-- Fetch outcomes that raise `NoRepoFoundError`. -/
def FetchOutcome.isFatal : FetchOutcome → Bool
  | .netError => true
  | .noRevisionField => true
  | _ => false

/-- The revision carried by a fetch outcome, if any. -/
def FetchOutcome.revisionOf : FetchOutcome → Option Nat
  | .revision n => some n
  | _ => none

/-! ## Incident (`openqabot/types/incident.py`) -/

/-- The `Incident` value as built by `Incident.__init__`. -/
structure Incident where
  id : Nat
  rrid : Option String
  project : String
  staging : Bool
  embargoed : Bool
  emu : Bool
  channels : List Repos
  packages : List String
  revisions : List (ArchVer × Nat)
  livepatch : Bool
deriving DecidableEq, Repr

/-- The raw incident record consumed by `Incident.__init__`. -/
structure RawIncident where
  number : Nat
  rr_number : Option Nat
  project : String
  inReview : Bool
  embargoed : Bool
  emu : Bool
  channels : List String
  packages : List String
deriving DecidableEq, Repr

/-- Exceptions that terminate `Incident.__init__`: the first three are the
`openqabot/errors.py` names it raises or catches; `AttributeError` is the
Python builtin raised uncaught through the `_rev`/`get_max_revision`
interface mismatch (see `get_max_revision_called_on_tuples`). -/
inductive IncidentError
  | EmptyChannels
  | EmptyPackagesError
  | NoRepoFoundError
  | AttributeError
deriving DecidableEq, Repr

/-- The loop of `Incident._is_livepatch`: returns `False` at the first
package starting with `kernel-default`/`kernel-source`/`kernel-azure`,
otherwise records whether a `kgraft-patch-`/`kernel-livepatch` package was
seen. -/
def is_livepatch_go (kgraft : Bool) : List String → Bool
  | [] => kgraft
  | p :: rest =>
    if pyStartswith p "kernel-default" || pyStartswith p "kernel-source"
        || pyStartswith p "kernel-azure" then false
    else
      is_livepatch_go
        (if pyStartswith p "kgraft-patch-" || pyStartswith p "kernel-livepatch" then true
         else kgraft)
        rest

/-- `Incident._is_livepatch` (`openqabot/types/incident.py` lines 143-159). -/
def Incident.is_livepatch (packages : List String) : Bool :=
  is_livepatch_go false packages

/-- `Incident.contains_package` (`openqabot/types/incident.py` lines
161-166): some package starts with some required prefix and is not exactly
`kernel-livepatch-tools`. -/
def Incident.contains_package (inc : Incident) (requires : List String) : Bool :=
  inc.packages.any (fun package =>
    requires.any (fun req =>
      pyStartswith package req && package != "kernel-livepatch-tools"))

/-- Grouping of channels by `ArchVer(arch, truncated version)` into an
insertion-ordered association list, as built by the `tmpdict` loop of
`Incident._rev`. -/
def buildGroups (channels : List Repos) : List (ArchVer × List (String × String)) :=
  channels.foldl (fun acc repo =>
    let k : ArchVer := { arch := repo.arch, version := truncVersion repo.version }
    if acc.any (fun g => g.1 == k) then
      acc.map (fun g => if g.1 == k then (g.1, g.2 ++ [(repo.product, repo.version)]) else g)
    else acc ++ [(k, [(repo.product, repo.version)])]) []

/-- `get_max_revision` as invoked by `Incident._rev` (`incident.py:127`):
the caller passes the plain `(product, version)` tuples collected at
`incident.py:118-122`, while `get_max_revision` (`repohash.py:37-80`)
expects `Repos` records — its first loop iteration dereferences
`repo.version`, `repo.product_version` and `repo._replace`
(`repohash.py:53-55`), none of which exist on a tuple, raising an
`AttributeError` before any fetch; `incident.py:130` catches only
`NoRepoFoundError`, so the exception escapes `Incident.__init__`.  An
empty repository list never enters the loop and returns the initial 0. -/
def get_max_revision_called_on_tuples (lrepos : List (String × String)) :
    Except IncidentError Nat :=
  match lrepos with
  | [] => .ok 0
  | _ :: _ => .error .AttributeError

/-- The per-group loop of `Incident._rev` (`incident.py:124-131`): resolve
each group in order with `get_max_revision` and keep groups with a
positive revision.  As invoked in these sources the callee crashes on the
first repository of a non-empty group (`get_max_revision_called_on_tuples`)
before consulting the network, so the `fetch` oracle — threaded to the
point where the fetch would occur — is never consulted and the
`NoRepoFoundError` re-raise at `incident.py:130-131` is unreachable. -/
def revGroups (fetch : String → String × String → FetchOutcome) :
    List (ArchVer × List (String × String)) → Except IncidentError (List (ArchVer × Nat))
  | [] => .ok []
  | (av, lrepos) :: rest =>
    match get_max_revision_called_on_tuples lrepos with
    | .error e => .error e
    | .ok n =>
      match revGroups fetch rest with
      | .error e => .error e
      | .ok tail => .ok (if n > 0 then (av, n) :: tail else tail)

/-- `Incident._rev` (`openqabot/types/incident.py` lines 106-133).  Every
group built by `buildGroups` carries at least one `(product, version)`
tuple, so for a non-empty channel list this raises `AttributeError`. -/
def Incident.rev (fetch : String → String × String → FetchOutcome)
    (channels : List Repos) : Except IncidentError (List (ArchVer × Nat)) :=
  revGroups fetch (buildGroups channels)

/-- `Incident.__init__` (`openqabot/types/incident.py` lines 16-104):
parse channels (raising `EmptyChannels` when none remain), sort packages by
length (raising `EmptyPackagesError` when empty), resolve revisions and
compute the livepatch flag.  In these sources the revision-resolution step
raises `AttributeError` for every non-empty channel set (see
`get_max_revision_called_on_tuples`), so construction never succeeds. -/
def Incident.init (fetch : String → String × String → FetchOutcome)
    (raw : RawIncident) : Except IncidentError Incident :=
  let channels := parse_channels raw.channels
  if channels.isEmpty then .error .EmptyChannels
  else
    let packages := pySortedByLen raw.packages
    if packages.isEmpty then .error .EmptyPackagesError
    else
      match Incident.rev fetch channels with
      | .error e => .error e
      | .ok revs =>
        .ok {
          id := raw.number
          rrid := match raw.rr_number with
            | some rr => if rr == 0 then none else some (raw.project ++ ":" ++ pyStrOfNat rr)
            | none => none
          project := raw.project
          staging := !raw.inReview
          embargoed := raw.embargoed
          emu := raw.emu
          channels := channels
          packages := packages
          revisions := revs
          livepatch := Incident.is_livepatch packages }

/-! ## Settings dictionaries (`full_post["openqa"]` in `Incidents.__call__`)

Python dict values in the settings map are either strings or integers
(`INCIDENT_ID`, `_PRIORITY`); insertion order is preserved and assigning to
an existing key overwrites it in place. -/

/-- A settings value: a Python string or integer. -/
inductive SVal
  | s (v : String)
  | n (v : Int)
deriving DecidableEq, Repr

/-- A Python dict with string keys, as an insertion-ordered association list. -/
abbrev Settings := List (String × SVal)

/-- `k in d` for a settings dict. -/
def hasKey (m : Settings) (k : String) : Bool :=
  m.any (fun kv => kv.1 == k)

/-- `d[k] = v`: overwrite in place when the key exists, else append. -/
def dset (m : Settings) (k : String) (v : SVal) : Settings :=
  if hasKey m k then m.map (fun kv => if kv.1 = k then (k, v) else kv)
  else m ++ [(k, v)]

/-- `d.get(k)`: the value at the first matching key, if any. -/
def dget : Settings → String → Option SVal
  | [], _ => none
  | kv :: rest, k => if kv.1 = k then some kv.2 else dget rest k

/-- Python truthiness of `d.get(k, False)`. -/
def truthy : Option SVal → Bool
  | none => false
  | some (.s v) => !(v == "")
  | some (.n v) => !(v == 0)

/-! ## Job templates (`Incidents.flavors` after `normalize_repos`) -/

/-- One flavor entry of a job template, after `Incidents.normalize_repos`:
the fields read by `Incidents.__call__`.  `Option` marks the keys whose
presence is tested with `in`; `aggregate_check_true`/`aggregate_check_false`
and `params_expand` default to empty via `data.get`, and
`override_priority`/`aggregate_job` default to `0`/`True`. -/
structure FlavorData where
  archs : List String
  issues : List (String × ProdVer)
  packages : Option (List String) := none
  excluded_packages : Option (List String) := none
  required_issues : Option (List String) := none
  aggregate_job : Bool := true
  aggregate_check_true : List String := []
  aggregate_check_false : List String := []
  override_priority : Int := 0
  params_expand : List (String × SVal) := []
deriving DecidableEq, Repr

/-- The `Incidents` object state read by `__call__`: the product settings
(with the required `VERSION` and `DISTRI` values carried explicitly), the
flavor map, and the single-arch package set `self.singlearch`.
The `filter_embargoed` toggle comes from the base configuration class,
which is not among these sources; per the spec it simply enables step 1 of
the filter chain. -/
structure IncidentsConf where
  settings : Settings
  version : String
  distri : String
  flavors : List (String × FlavorData)
  singlearch : List String
  filter_embargoed : Bool

/-- One already-scheduled job record returned by the dashboard
(`api/incident_settings/{id}`); a missing field raises `KeyError` in the
source, which skips the record. -/
structure JobRecord where
  flavor : Option String
  arch : Option String
  repohash : Option Nat
deriving DecidableEq, Repr

/-- The dashboard response consumed by `Incidents._is_scheduled_job`:
a request failure or falsy body, a dict containing `error`, or a list of
job records. -/
inductive DashboardResponse
  | fail
  | errorDict
  | jobs (l : List JobRecord)
deriving DecidableEq, Repr

/-- External collaborators of `Incidents.__call__`: the CI url, the
one-time-schedule override, the dashboard query response per incident id,
the two public-cloud settings enrichers from `openqabot/pc_helper.py`
(modelled as functions on the settings map, as they only rewrite it from a
remote image catalog), and the `QEM_DASHBOARD` base url constant. -/
structure PipelineCfg where
  ci_url : Option String
  ignore_onetime : Bool
  dashboard : Nat → DashboardResponse
  pc_tools : Settings → Settings
  pint : Settings → Settings
  qem_dashboard : String

/-- Value lookup in the incident's revisions dict. -/
def lookupAV (revs : List (ArchVer × Nat)) (k : ArchVer) : Option Nat :=
  (revs.find? (fun e => e.1 == k)).map (fun e => e.2)

/-- Modelled from the spec: `Incident.revisions_with_fallback` is called by
`Incidents.__call__` but is not defined in these sources.  Per the spec
(§4.3 step 5 and §9), it returns the revision recorded for
`(arch, template version)` and, when no exact version match is recorded,
falls back to the first recorded `ArchVer` entry with the same arch;
when no usable revision exists it returns nothing. -/
def Incident.revisions_with_fallback (inc : Incident) (arch ver : String) : Option Nat :=
  match lookupAV inc.revisions { arch := arch, version := ver } with
  | some r => some r
  | none => (inc.revisions.find? (fun e => e.1.arch == arch)).map (fun e => e.2)

/-- `Incidents._is_scheduled_job` (`openqabot/types/incidents.py` lines
51-85): false on a failed request or an `error` dict; otherwise true iff
some record matches flavor and arch and its `REPOHASH` equals the
incident's revision at `ArchVer(arch, ver)` (a `KeyError`, from a missing
record field or a missing revision entry, skips the record). -/
def is_scheduled_job (resp : DashboardResponse) (inc : Incident)
    (arch ver flavor : String) : Bool :=
  match resp with
  | .fail => false
  | .errorDict => false
  | .jobs l =>
    l.any (fun job =>
      match job.flavor, job.arch, job.repohash, lookupAV inc.revisions { arch := arch, version := ver } with
      | some f, some a, some rh, some rv => f == flavor && a == arch && rh == rv
      | _, _, _, _ => false)

/-! ## The scheduling pipeline (`Incidents.__call__`) -/

/-- The base of `DOWNLOAD_BASE` in `Incidents.__call__`. -/
def DOWNLOAD_BASE : String := "http://download.suse.de/ibs/SUSE:/Maintenance:/"

/-- `Incidents._repo_osuse`: the tuple joined with `_` for `INCIDENT_REPO`;
`openSUSE-SLE` products collapse to `(product, version)`, all others keep
the whole `Repos` tuple (whose trailing `product_version` is empty). -/
def repo_osuse (chan : Repos) : List String :=
  if chan.product == "openSUSE-SLE" then [chan.product, chan.version]
  else [chan.product, chan.version, chan.arch, chan.product_version]

/-- `"_".join(xs)`. -/
def joinUnderscore : List String → String
  | [] => ""
  | [x] => x
  | x :: xs => x ++ "_" ++ joinUnderscore xs

/-- Base settings of `full_post["openqa"]` (lines 108-126): product
settings, then ARCH/FLAVOR/VERSION/DISTRI, obsoletion markers, the
incident id, and the CI url when given. -/
def base_settings (cfg : PipelineCfg) (conf : IncidentsConf) (flavor arch : String)
    (inc : Incident) : Settings :=
  let m := conf.settings.foldl (fun m kv => dset m kv.1 kv.2) []
  let m := dset m "ARCH" (.s arch)
  let m := dset m "FLAVOR" (.s flavor)
  let m := dset m "VERSION" (.s conf.version)
  let m := dset m "DISTRI" (.s conf.distri)
  let m := dset m "_ONLY_OBSOLETE_SAME_BUILD" (.s "1")
  let m := dset m "_OBSOLETE" (.s "1")
  let m := dset m "INCIDENT_ID" (.n inc.id)
  match cfg.ci_url with
  | some u => dset m "__CI_JOB_URL" (.s u)
  | none => m

/-- Settings after the KGRAFT/BUILD/RRID writes (lines 139-145). -/
def tagged_settings (cfg : PipelineCfg) (conf : IncidentsConf) (flavor arch : String)
    (inc : Incident) : Settings :=
  let m := base_settings cfg conf flavor arch inc
  let m := if inc.livepatch then dset m "KGRAFT" (.s "1") else m
  let m := dset m "BUILD" (.s (":" ++ pyStrOfNat inc.id ++ ":" ++ (inc.packages.headD "")))
  match inc.rrid with
  | some r => dset m "RRID" (.s r)
  | none => m

/-- The issue keys whose channel matches the incident (the keys of
`issue_dict`, lines 152-160), in template order. -/
def matched_issues (d : FlavorData) (arch : String) (inc : Incident) : List String :=
  (d.issues.filter (fun kv =>
    inc.channels.contains { product := kv.2.product, version := kv.2.version, arch := arch })).map
    (fun kv => kv.1)

/-- The `INCIDENT_REPO` value (lines 205-211): download URLs of the matched
channels (deduplicated, as `channels_set` is a set), sorted. -/
def incident_repo (d : FlavorData) (arch : String) (inc : Incident) : String :=
  let chans := ((d.issues.filter (fun kv =>
    inc.channels.contains { product := kv.2.product, version := kv.2.version, arch := arch })).map
    (fun kv => ({ product := kv.2.product, version := kv.2.version, arch := arch } : Repos))).dedup
  let urls := chans.map (fun chan =>
    DOWNLOAD_BASE ++ pyStrOfNat inc.id ++ "/SUSE_Updates_" ++ joinUnderscore (repo_osuse chan))
  String.intercalate "," (pySortedStr urls)

/-- Settings after `REPOHASH`, the issue keys and `INCIDENT_REPO`
(lines 151-211), given the resolved revision `r`. -/
def pre_agg_settings (cfg : PipelineCfg) (conf : IncidentsConf) (flavor : String)
    (d : FlavorData) (arch : String) (inc : Incident) (r : Nat) : Settings :=
  let m := dset (tagged_settings cfg conf flavor arch inc) "REPOHASH" (.n r)
  let m := (matched_issues d arch inc).foldl
    (fun m k => dset m k (.s (pyStrOfNat inc.id))) m
  dset m "INCIDENT_REPO" (.s (incident_repo d arch inc))

/-- The `withAggregate` computation (lines 213-231): default true; when
`aggregate_job` is false, demoted by a configured positive set meeting the
settings keys, by a configured negative set disjoint from them, or by
either set being unconfigured; finally demoted when any incident package is
in the single-arch set. -/
def computeWithAggregate (d : FlavorData) (keys : List String)
    (singlearch packages : List String) : Bool :=
  let w := true
  let w :=
    if !d.aggregate_job then
      let pos := d.aggregate_check_true
      let neg := d.aggregate_check_false
      let w := if !pos.isEmpty && pos.any (fun k => keys.contains k) then false else w
      let w := if !neg.isEmpty && neg.all (fun k => !keys.contains k) then false else w
      if !(!neg.isEmpty && !pos.isEmpty) then false else w
    else w
  if packages.any (fun p => singlearch.contains p) then false else w

/-- The priority computation (lines 233-246), exactly as in the source:
when `override_priority` is non-zero the `delta_prio -= 50` branch is taken
and nothing is written; otherwise the Minimal/staging/emu delta is
accumulated and `_PRIORITY = 50 + delta` is written when the delta is
non-zero. -/
def apply_priority (d : FlavorData) (flavor : String) (inc : Incident)
    (m : Settings) : Settings :=
  if !(d.override_priority == 0) then m
  else
    let delta : Int := 0
    let delta := if pyEndswith flavor "Minimal" then delta - 5 else delta
    let delta := if !inc.staging then delta + 10 else delta
    let delta := if inc.emu then -20 else delta
    if !(delta == 0) then dset m "_PRIORITY" (.n (50 + delta)) else m

/-- Settings after priority, `params_expand` and the informational URLs
(lines 233-257). -/
def post_settings (cfg : PipelineCfg) (conf : IncidentsConf) (flavor : String)
    (d : FlavorData) (arch : String) (inc : Incident) (r : Nat) : Settings :=
  let m := apply_priority d flavor inc (pre_agg_settings cfg conf flavor d arch inc r)
  let m := d.params_expand.foldl (fun m kv => dset m kv.1 kv.2) m
  let m := dset m "__SMELT_INCIDENT_URL" (.s ("https://smelt.suse.de/incident/" ++ pyStrOfNat inc.id))
  dset m "__DASHBOARD_INCIDENT_URL" (.s (cfg.qem_dashboard ++ "incident/" ++ pyStrOfNat inc.id))

/-- The first public-cloud enrichment step (lines 263-266): when the tools
image query key is present, apply the tools enricher and drop the job
unless the tools image base key is truthy afterwards. -/
def pc_step1 (cfg : PipelineCfg) (settings : Settings) : Option Settings :=
  if hasKey settings "PUBLIC_CLOUD_TOOLS_IMAGE_QUERY" then
    if truthy (dget (cfg.pc_tools settings) "PUBLIC_CLOUD_TOOLS_IMAGE_BASE") then
      some (cfg.pc_tools settings)
    else none
  else some settings

/-- The second public-cloud enrichment step (lines 269-272): when the pint
query key is present, apply the pint enricher and drop the job unless the
image id key is truthy afterwards. -/
def pc_step2 (cfg : PipelineCfg) (s1 : Settings) : Option Settings :=
  if hasKey s1 "PUBLIC_CLOUD_PINT_QUERY" then
    if truthy (dget (cfg.pint s1) "PUBLIC_CLOUD_IMAGE_ID") then some (cfg.pint s1) else none
  else some s1

/-- The public-cloud enrichment steps (lines 259-272). -/
def pc_enrich (cfg : PipelineCfg) (settings : Settings) : Option Settings :=
  match pc_step1 cfg settings with
  | none => none
  | some s1 => pc_step2 cfg s1

/-- A produced job request: the `qem` bookkeeping section and the final
`openqa` settings (which are also stored as `qem.settings`). -/
structure JobRequest where
  incident : Nat
  arch : String
  flavor : String
  version : String
  withAggregate : Bool
  settings : Settings
deriving DecidableEq, Repr

/-- The four kernel product-repository issue keys (lines 186-194). -/
def kernelIssueKeys : List String :=
  ["OS_TEST_ISSUES", "LTSS_TEST_ISSUES", "BASE_TEST_ISSUES", "RT_TEST_ISSUES"]

/-- The steps of `Incidents.__call__` after the revision lookup succeeded
with value `r` (lines 149-276): the falsy-revision skip, the channel/issue
matching skip, the required-issues skip, the idempotency skip, the kernel
gate, then settings finalization and public-cloud enrichment. -/
def run_after_rev (cfg : PipelineCfg) (conf : IncidentsConf) (flavor : String)
    (d : FlavorData) (arch : String) (inc : Incident) (r : Nat) : Option JobRequest :=
  if r == 0 then none
  else if (matched_issues d arch inc).isEmpty then none
  else if (match d.required_issues with
    | some req => (matched_issues d arch inc).all (fun k => !req.contains k)
    | none => false) then none
  else if !cfg.ignore_onetime
      && is_scheduled_job (cfg.dashboard inc.id) inc arch conf.version flavor then none
  else if pyContains flavor "Kernel" && !inc.livepatch && !(pyEndswith flavor "Azure")
      && (matched_issues d arch inc).all (fun k => !kernelIssueKeys.contains k) then none
  else
    match pc_enrich cfg (post_settings cfg conf flavor d arch inc r) with
    | none => none
    | some st =>
      some {
        incident := inc.id
        arch := arch
        flavor := flavor
        version := conf.version
        withAggregate := computeWithAggregate d
          ((pre_agg_settings cfg conf flavor d arch inc r).map (fun kv => kv.1))
          conf.singlearch inc.packages
        settings := st }

/-- One `(flavor, arch, incident)` iteration of `Incidents.__call__`
(lines 101-276): the embargo, staging, package allow/deny filters, the
revision lookup, then `run_after_rev`.  Returns the appended job request,
or nothing when the incident was skipped. -/
def run (cfg : PipelineCfg) (conf : IncidentsConf) (flavor : String)
    (d : FlavorData) (arch : String) (inc : Incident) : Option JobRequest :=
  if conf.filter_embargoed && inc.embargoed then none
  else if inc.staging then none
  else if (match d.packages with
    | some pkgs => !inc.contains_package pkgs
    | none => false) then none
  else if (match d.excluded_packages with
    | some pkgs => inc.contains_package pkgs
    | none => false) then none
  else
    match inc.revisions_with_fallback arch conf.version with
    | none => none
    | some r => run_after_rev cfg conf flavor d arch inc r

/-- `Incidents.__call__` (lines 87-277): iterate flavors, their archs and
the incidents in order, collecting the produced job requests. -/
def Incidents.call (cfg : PipelineCfg) (conf : IncidentsConf)
    (incidents : List Incident) : List JobRequest :=
  conf.flavors.flatMap (fun fd =>
    fd.2.archs.flatMap (fun arch =>
      incidents.filterMap (fun inc => run cfg conf fd.1 fd.2 arch inc)))

/-! ## Definitions for the claim analysis -/

deriving instance DecidableEq for Except

/-- The channel-derivation rule exactly as the specification's claim states
it: keep only strings prefixed `SUSE:Updates:` (with the colon); accept
three remaining fields as `(product, version, arch)` and two as
`(product, version)` with arch `x86_64`; drop every entry whose product is
`SLE-Module-Development-Tools-OBS`; drop Manager-Server on aarch64. -/
def claimed_parse_channels (channels : List String) : List Repos :=
  (channels.filterMap (fun r =>
    if pyStartswith r "SUSE:Updates:" then
      match chanFields r with
      | [p, v, a] =>
        if p == "SLE-Module-Development-Tools-OBS" then none
        else some { product := p, version := v, arch := a }
      | [p, v] =>
        if p == "SLE-Module-Development-Tools-OBS" then none
        else some { product := p, version := v, arch := "x86_64" }
      | _ => none
    else none)).filter notSumaAarch

/-- The per-string channel rule as amended to match the source: the prefix
test is `SUSE:Updates` without a trailing colon, and the
`SLE-Module-Development-Tools-OBS` product is dropped only among
three-field entries. -/
def amendedEntry (r : String) : Option Repos :=
  if pyStartswith r "SUSE:Updates" then
    match chanFields r with
    | [p, v, a] =>
      if p == "SLE-Module-Development-Tools-OBS" then none
      else some { product := p, version := v, arch := a }
    | [p, v] => some { product := p, version := v, arch := "x86_64" }
    | _ => none
  else none

/-- The amended channel-derivation rule: `amendedEntry` per string, then
the Manager-Server/aarch64 filter. -/
def amended_parse_channels (channels : List String) : List Repos :=
  (channels.filterMap amendedEntry).filter notSumaAarch

/-- A pipeline configuration with no CI url, the one-time check disabled
and no public-cloud rewriting, used by the concrete scenarios. -/
def plainCfg : PipelineCfg :=
  { ci_url := none, ignore_onetime := true, dashboard := fun _ => .fail,
    pc_tools := id, pint := id, qem_dashboard := "http://dashboard.qam.suse.de/" }

/-- A single issue mapping `FOO_TEST_ISSUES -> FOO:1`, used by the concrete
scenarios. -/
def fooIssues : List (String × ProdVer) :=
  [("FOO_TEST_ISSUES", { product := "FOO", version := "1" })]

/-- An incident with a single `FOO:1:x86_64` channel, used by the concrete
scenarios; `emu` and the id, packages and revision vary per scenario. -/
def mkFooIncident (id : Nat) (emu : Bool) (packages : List String) (rev : Nat) : Incident :=
  { id := id, rrid := none, project := "SUSE:Maintenance", staging := false,
    embargoed := false, emu := emu,
    channels := [{ product := "FOO", version := "1", arch := "x86_64" }],
    packages := packages,
    revisions := [({ arch := "x86_64", version := "1" }, rev)], livepatch := false }

/-- C1 scenario: flavor with `override_priority = 5`. -/
def c1dA : FlavorData := { archs := ["x86_64"], issues := fooIssues, override_priority := 5 }

/-- C1 scenario: flavor with the default `override_priority = 0`. -/
def c1dB : FlavorData := { archs := ["x86_64"], issues := fooIssues }

/-- C1 scenario: an emu incident (so the claim expects priority 30 on the
default-priority flavor and 5 on the overridden one). -/
def c1inc : Incident := mkFooIncident 11 true ["pkg"] 5

/-- C1 scenario configuration: both flavors over the same product. -/
def c1conf : IncidentsConf :=
  { settings := [], version := "1", distri := "sle",
    flavors := [("FA", c1dA), ("FB", c1dB)], singlearch := [], filter_embargoed := false }

/-- C2 witness scenario: plain flavor data. -/
def c2wD : FlavorData := { archs := ["x86_64"], issues := fooIssues }

/-- C2 witness scenario: incident with resolved revision 9. -/
def c2wInc : Incident := mkFooIncident 7 false ["p"] 9

/-- C2 witness scenario configuration. -/
def c2wConf : IncidentsConf :=
  { settings := [], version := "1", distri := "sle",
    flavors := [("C2F", c2wD)], singlearch := [], filter_embargoed := false }

/-- C3 counterexample scenario: both aggregate trigger sets configured,
`aggregate_job` left at its default. -/
def c3xD : FlavorData :=
  { archs := ["x86_64"], issues := fooIssues,
    aggregate_check_true := ["ARCH"], aggregate_check_false := ["NOPE"] }

/-- C3 counterexample incident. -/
def c3xInc : Incident := mkFooIncident 21 false ["pkg"] 3

/-- C3 counterexample configuration. -/
def c3xConf : IncidentsConf :=
  { settings := [], version := "1", distri := "sle",
    flavors := [("F", c3xD)], singlearch := [], filter_embargoed := false }

/-- C3 witness scenario: `aggregate_job = false` with no trigger sets. -/
def c3wD : FlavorData := { archs := ["x86_64"], issues := fooIssues, aggregate_job := false }

/-- C3 witness incident. -/
def c3wInc : Incident := mkFooIncident 22 false ["pkg"] 4

/-- C3 witness configuration. -/
def c3wConf : IncidentsConf :=
  { settings := [], version := "1", distri := "sle",
    flavors := [("F", c3wD)], singlearch := [], filter_embargoed := false }

/-- C5 witness fetch oracle: each repository reports its own number as the
revision. -/
def c5fetch : Nat → FetchOutcome := fun n => FetchOutcome.revision n

/-- C7 witness scenario: an issue key that is not a kernel
product-repository key. -/
def c7wD : FlavorData :=
  { archs := ["x86_64"], issues := [("MISC_TEST_ISSUES", { product := "FOO", version := "1" })] }

/-- C7 witness incident (not a livepatch). -/
def c7wInc : Incident := mkFooIncident 31 false ["pkg"] 6

/-- C7 witness configuration with the kernel-named flavor. -/
def c7wConf : IncidentsConf :=
  { settings := [], version := "1", distri := "sle",
    flavors := [("Kernel-Something", c7wD)], singlearch := [], filter_embargoed := false }

/-- C8 fetch oracle: every repository resolves to revision 1. -/
def c8fetch : String → String × String → FetchOutcome := fun _ _ => .revision 1

/-- C8 counterexample: a channel starting with `SUSE:Updates` but not with
`SUSE:Updates:`. -/
def c8rawOk : RawIncident :=
  { number := 1, rr_number := none, project := "P", inReview := true,
    embargoed := false, emu := false,
    channels := ["SUSE:UpdatesX:p:v:a"], packages := ["p"] }

/-- C8 counterexample: empty channels and empty packages. -/
def c8rawEmptyBoth : RawIncident :=
  { number := 2, rr_number := none, project := "P", inReview := true,
    embargoed := false, emu := false, channels := [], packages := [] }

/-- C8 witness: no channel starts with `SUSE:Updates`. -/
def c8rawNoUpd : RawIncident :=
  { number := 3, rr_number := none, project := "P", inReview := true,
    embargoed := false, emu := false, channels := ["nope"], packages := ["p"] }

/-- C8 witness: a usable channel but an empty package list. -/
def c8rawNoPkg : RawIncident :=
  { number := 4, rr_number := none, project := "P", inReview := true,
    embargoed := false, emu := false,
    channels := ["SUSE:Updates:A:1:x86_64"], packages := [] }

/-- C9 fetch oracle: every repository resolves to revision 7. -/
def c9fetch : String → String × String → FetchOutcome := fun _ _ => .revision 7

/-- C9 raw incident: one matching channel, packages `aaa` and `bb`. -/
def c9raw : RawIncident :=
  { number := 42, rr_number := some 300, project := "SUSE:Maintenance:42", inReview := true,
    embargoed := false, emu := false,
    channels := ["SUSE:Updates:FOO:1:x86_64"], packages := ["aaa", "bb"] }

/-- C9: the incident value the specification's construction (parsed
channel, packages sorted by length, resolved revision 7) would yield from
`c9raw`; the staged `Incident.__init__` itself never gets there (see
`get_max_revision_called_on_tuples`), so this value is used to exercise
the scheduling-pipeline half of the scenario. -/
def c9inc : Incident :=
  { id := 42, rrid := some "SUSE:Maintenance:42:300", project := "SUSE:Maintenance:42",
    staging := false, embargoed := false, emu := false,
    channels := [{ product := "FOO", version := "1", arch := "x86_64" }],
    packages := ["bb", "aaa"],
    revisions := [({ arch := "x86_64", version := "1" }, 7)], livepatch := false }

/-- C9 template: one flavor on `x86_64` with one issue key mapped to
`(FOO, 1)`. -/
def c9d : FlavorData := { archs := ["x86_64"], issues := fooIssues }

/-- C9 configuration. -/
def c9conf : IncidentsConf :=
  { settings := [], version := "1", distri := "sle",
    flavors := [("Server-DVD-Updates", c9d)], singlearch := [], filter_embargoed := false }

/-- C10 witness: the deny/allow list prefix. -/
def c10reqs : List String := ["kernel-livepatch"]

/-- C10 witness incident: its only package is exactly
`kernel-livepatch-tools`. -/
def c10inc : Incident := mkFooIncident 51 false ["kernel-livepatch-tools"] 8

/-- C10 witness flavor: allow-list set to `c10reqs`. -/
def c10d : FlavorData := { archs := ["x86_64"], issues := fooIssues, packages := some c10reqs }

/-- C10 witness configuration. -/
def c10conf : IncidentsConf :=
  { settings := [], version := "1", distri := "sle",
    flavors := [("F", c10d)], singlearch := [], filter_embargoed := false }

/-- C2 witness: the job request produced for `c2wInc`. -/
def c2wJob : JobRequest :=
  { incident := 7, arch := "x86_64", flavor := "C2F", version := "1",
    withAggregate := true,
    settings := [("ARCH", SVal.s "x86_64"),
      ("FLAVOR", SVal.s "C2F"),
      ("VERSION", SVal.s "1"),
      ("DISTRI", SVal.s "sle"),
      ("_ONLY_OBSOLETE_SAME_BUILD", SVal.s "1"),
      ("_OBSOLETE", SVal.s "1"),
      ("INCIDENT_ID", SVal.n 7),
      ("BUILD", SVal.s ":7:p"),
      ("REPOHASH", SVal.n 9),
      ("FOO_TEST_ISSUES", SVal.s "7"),
      ("INCIDENT_REPO", SVal.s "http://download.suse.de/ibs/SUSE:/Maintenance:/7/SUSE_Updates_FOO_1_x86_64_"),
      ("_PRIORITY", SVal.n 60),
      ("__SMELT_INCIDENT_URL", SVal.s "https://smelt.suse.de/incident/7"),
      ("__DASHBOARD_INCIDENT_URL", SVal.s "http://dashboard.qam.suse.de/incident/7")] }

/-- C3 witness: the job request produced for `c3wInc`. -/
def c3wJob : JobRequest :=
  { incident := 22, arch := "x86_64", flavor := "F", version := "1",
    withAggregate := false,
    settings := [("ARCH", SVal.s "x86_64"),
      ("FLAVOR", SVal.s "F"),
      ("VERSION", SVal.s "1"),
      ("DISTRI", SVal.s "sle"),
      ("_ONLY_OBSOLETE_SAME_BUILD", SVal.s "1"),
      ("_OBSOLETE", SVal.s "1"),
      ("INCIDENT_ID", SVal.n 22),
      ("BUILD", SVal.s ":22:pkg"),
      ("REPOHASH", SVal.n 4),
      ("FOO_TEST_ISSUES", SVal.s "22"),
      ("INCIDENT_REPO", SVal.s "http://download.suse.de/ibs/SUSE:/Maintenance:/22/SUSE_Updates_FOO_1_x86_64_"),
      ("_PRIORITY", SVal.n 60),
      ("__SMELT_INCIDENT_URL", SVal.s "https://smelt.suse.de/incident/22"),
      ("__DASHBOARD_INCIDENT_URL", SVal.s "http://dashboard.qam.suse.de/incident/22")] }

/-! ## Helper lemmas -/

theorem dget_map_subst_ne (m : Settings) (k k' : String) (v : SVal) (h : k' ≠ k) :
    dget (m.map (fun kv => if kv.1 = k then (k, v) else kv)) k' = dget m k' := by
  induction m with
  | nil => rfl
  | cons kv rest ih =>
    by_cases hkv : kv.1 = k
    · simp [dget, hkv, Ne.symm h, ih]
    · by_cases hk' : kv.1 = k'
      · simp [dget, hkv, hk', h]
      · simp [dget, hkv, hk', ih]

theorem dget_map_subst_self (m : Settings) (k : String) (v : SVal) (h : hasKey m k = true) :
    dget (m.map (fun kv => if kv.1 = k then (k, v) else kv)) k = some v := by
  induction m with
  | nil => simp [hasKey] at h
  | cons kv rest ih =>
    by_cases hkv : kv.1 = k
    · simp [dget, hkv]
    · have hrest : hasKey rest k = true := by
        simp only [hasKey, List.any_cons, Bool.or_eq_true, beq_iff_eq] at h
        rcases h with h' | h'
        · exact absurd h' hkv
        · simpa [hasKey] using h'
      simp [dget, hkv, ih hrest]

theorem dget_append_single (m : Settings) (k k' : String) (v : SVal) (h : hasKey m k = false) :
    dget (m ++ [(k, v)]) k' = if k' = k then some v else dget m k' := by
  induction m with
  | nil =>
    by_cases hk : k' = k
    · simp [dget, hk]
    · simp [dget, hk, Ne.symm hk]
  | cons kv rest ih =>
    have hh : ¬(kv.1 = k) := by
      simp only [hasKey, List.any_cons, Bool.or_eq_false_iff, beq_eq_false_iff_ne, ne_eq] at h
      exact h.1
    have hrest : hasKey rest k = false := by
      simp only [hasKey, List.any_cons, Bool.or_eq_false_iff] at h
      exact h.2
    by_cases hk' : kv.1 = k'
    · have hk'k : ¬(k' = k) := fun hkk => hh (hk'.trans hkk)
      simp [dget, hk', hk'k]
    · simp [dget, hk', ih hrest]

theorem dget_dset (m : Settings) (k k' : String) (v : SVal) :
    dget (dset m k v) k' = if k' = k then some v else dget m k' := by
  by_cases h : hasKey m k = true
  · rw [dset, if_pos h]
    by_cases h' : k' = k
    · subst h'; rw [if_pos rfl, dget_map_subst_self _ _ _ h]
    · rw [if_neg h', dget_map_subst_ne _ _ _ _ h']
  · rw [dset, if_neg (by simpa using h), dget_append_single _ _ _ _ (by simpa using h)]

theorem dget_dset_self (m : Settings) (k : String) (v : SVal) :
    dget (dset m k v) k = some v := by
  simp [dget_dset]

theorem dget_dset_ne (m : Settings) (k k' : String) (v : SVal) (h : k' ≠ k) :
    dget (dset m k v) k' = dget m k' := by
  simp [dget_dset, h]

theorem dget_foldl_pairs_ne (l : List (String × SVal)) (m : Settings) (k : String)
    (h : ∀ kv ∈ l, kv.1 ≠ k) :
    dget (l.foldl (fun m kv => dset m kv.1 kv.2) m) k = dget m k := by
  induction l generalizing m with
  | nil => rfl
  | cons kv rest ih =>
    rw [List.foldl_cons, ih _ (fun x hx => h x (List.mem_cons_of_mem _ hx)),
      dget_dset_ne _ _ _ _ (Ne.symm (h kv (List.mem_cons_self _ _)))]

theorem dget_foldl_const_ne (ks : List String) (v : SVal) (m : Settings) (k : String)
    (h : ∀ x ∈ ks, x ≠ k) :
    dget (ks.foldl (fun m x => dset m x v) m) k = dget m k := by
  induction ks generalizing m with
  | nil => rfl
  | cons x rest ih =>
    rw [List.foldl_cons, ih _ (fun y hy => h y (List.mem_cons_of_mem _ hy)),
      dget_dset_ne _ _ _ _ (Ne.symm (h x (List.mem_cons_self _ _)))]

theorem dget_apply_priority_ne (d : FlavorData) (flavor : String) (inc : Incident)
    (m : Settings) (k : String) (h : k ≠ "_PRIORITY") :
    dget (apply_priority d flavor inc m) k = dget m k := by
  unfold apply_priority
  dsimp only
  repeat' split
  all_goals first | rfl | exact dget_dset_ne _ _ _ _ h

theorem matched_issues_key_ne (d : FlavorData) (arch : String) (inc : Incident) (k : String)
    (h : ∀ kv ∈ d.issues, kv.1 ≠ k) :
    ∀ x ∈ matched_issues d arch inc, x ≠ k := by
  intro x hx
  simp only [matched_issues, List.mem_map, List.mem_filter] at hx
  obtain ⟨kv, ⟨hkv, _⟩, hx1⟩ := hx
  exact hx1 ▸ h kv hkv

theorem dget_pre_agg_repohash (cfg : PipelineCfg) (conf : IncidentsConf) (flavor : String)
    (d : FlavorData) (arch : String) (inc : Incident) (r : Nat)
    (hiss : ∀ kv ∈ d.issues, kv.1 ≠ "REPOHASH") :
    dget (pre_agg_settings cfg conf flavor d arch inc r) "REPOHASH" = some (.n r) := by
  unfold pre_agg_settings
  rw [dget_dset_ne _ _ _ _ (by decide),
    dget_foldl_const_ne _ _ _ _ (matched_issues_key_ne d arch inc _ hiss),
    dget_dset_self]

theorem dget_post_repohash (cfg : PipelineCfg) (conf : IncidentsConf) (flavor : String)
    (d : FlavorData) (arch : String) (inc : Incident) (r : Nat)
    (hiss : ∀ kv ∈ d.issues, kv.1 ≠ "REPOHASH")
    (hpar : ∀ kv ∈ d.params_expand, kv.1 ≠ "REPOHASH") :
    dget (post_settings cfg conf flavor d arch inc r) "REPOHASH" = some (.n r) := by
  unfold post_settings
  rw [dget_dset_ne _ _ _ _ (by decide), dget_dset_ne _ _ _ _ (by decide),
    dget_foldl_pairs_ne _ _ _ hpar, dget_apply_priority_ne _ _ _ _ _ (by decide),
    dget_pre_agg_repohash _ _ _ _ _ _ _ hiss]

theorem dget_pc_step1 (cfg : PipelineCfg) (s st : Settings) (k : String)
    (ht : ∀ s, dget (cfg.pc_tools s) k = dget s k)
    (h : pc_step1 cfg s = some st) :
    dget st k = dget s k := by
  unfold pc_step1 at h
  split at h
  · split at h
    · simp only [Option.some.injEq] at h
      subst h
      exact ht s
    · exact absurd h (by simp)
  · simp only [Option.some.injEq] at h
    subst h
    rfl

theorem dget_pc_step2 (cfg : PipelineCfg) (s st : Settings) (k : String)
    (hp : ∀ s, dget (cfg.pint s) k = dget s k)
    (h : pc_step2 cfg s = some st) :
    dget st k = dget s k := by
  unfold pc_step2 at h
  split at h
  · split at h
    · simp only [Option.some.injEq] at h
      subst h
      exact hp s
    · exact absurd h (by simp)
  · simp only [Option.some.injEq] at h
    subst h
    rfl

theorem dget_pc_enrich (cfg : PipelineCfg) (s st : Settings) (k : String)
    (ht : ∀ s, dget (cfg.pc_tools s) k = dget s k)
    (hp : ∀ s, dget (cfg.pint s) k = dget s k)
    (h : pc_enrich cfg s = some st) :
    dget st k = dget s k := by
  unfold pc_enrich at h
  split at h
  · exact absurd h (by simp)
  · rename_i s1 heq
    rw [dget_pc_step2 cfg s1 st k hp h]
    exact dget_pc_step1 cfg s s1 k ht heq

theorem any_perm {α : Type} {l₁ l₂ : List α} (h : l₁.Perm l₂) (f : α → Bool) :
    l₁.any f = l₂.any f := by
  apply Bool.coe_iff_coe.mp
  simp only [List.any_eq_true]
  constructor
  · rintro ⟨x, hx, hfx⟩
    exact ⟨x, h.mem_iff.mp hx, hfx⟩
  · rintro ⟨x, hx, hfx⟩
    exact ⟨x, h.mem_iff.mpr hx, hfx⟩

theorem get_max_revision_go_eq {α : Type} (fetch : α → FetchOutcome) (l : List α) (acc : Nat) :
    get_max_revision_go fetch l acc =
      if l.any (fun x => (fetch x).isFatal) then Except.error RepoError.noRepoFound
      else Except.ok ((l.filterMap (fun x => (fetch x).revisionOf)).foldl max acc) := by
  induction l generalizing acc with
  | nil => simp [get_max_revision_go]
  | cons x rest ih =>
    cases hf : fetch x <;>
      simp [get_max_revision_go, hf, FetchOutcome.isFatal, FetchOutcome.revisionOf, ih]

theorem get_max_revision_eq {α : Type} (fetch : α → FetchOutcome) (l : List α) :
    get_max_revision fetch l =
      if l.any (fun x => (fetch x).isFatal) then Except.error RepoError.noRepoFound
      else Except.ok ((l.filterMap (fun x => (fetch x).revisionOf)).foldl max 0) :=
  get_max_revision_go_eq fetch l 0

theorem is_livepatch_go_eq (pkgs : List String) (kgraft : Bool) :
    is_livepatch_go kgraft pkgs =
      ((kgraft || pkgs.any (fun p =>
          pyStartswith p "kgraft-patch-" || pyStartswith p "kernel-livepatch"))
        && !(pkgs.any (fun p =>
          pyStartswith p "kernel-default" || pyStartswith p "kernel-source"
            || pyStartswith p "kernel-azure"))) := by
  induction pkgs generalizing kgraft with
  | nil => simp [is_livepatch_go]
  | cons p rest ih =>
    by_cases hk : (pyStartswith p "kernel-default" || pyStartswith p "kernel-source"
        || pyStartswith p "kernel-azure") = true
    · simp [is_livepatch_go, hk]
    · have hk' := Bool.not_eq_true _ ▸ hk
      by_cases hl : (pyStartswith p "kgraft-patch-" || pyStartswith p "kernel-livepatch") = true
      · simp [is_livepatch_go, hk, hk', hl, ih]
      · have hl' := Bool.not_eq_true _ ▸ hl
        simp [is_livepatch_go, hk, hk', hl, hl', ih]

theorem amendedEntry_eq_some_iff (r : String) (c : Repos) :
    amendedEntry r = some c ↔
      (pyStartswith r "SUSE:Updates" = true ∧ (entry3 r = some c ∨ entry2 r = some c)) := by
  by_cases hp : pyStartswith r "SUSE:Updates" = true
  · cases hcf : chanFields r with
    | nil => simp [amendedEntry, entry3, entry2, hp, hcf]
    | cons p tl =>
      cases tl with
      | nil => simp [amendedEntry, entry3, entry2, hp, hcf]
      | cons v tl2 =>
        cases tl2 with
        | nil => simp [amendedEntry, entry3, entry2, hp, hcf]
        | cons a tl3 =>
          cases tl3 with
          | nil =>
            by_cases hd : (p == "SLE-Module-Development-Tools-OBS") = true <;>
              simp [amendedEntry, entry3, entry2, hp, hcf, hd]
          | cons b tl4 => simp [amendedEntry, entry3, entry2, hp, hcf]
  · simp [amendedEntry, hp, Bool.not_eq_true _ ▸ hp]

theorem parse_channels_mem_iff (channels : List String) (c : Repos) :
    c ∈ parse_channels channels ↔ c ∈ amended_parse_channels channels := by
  simp only [parse_channels, amended_parse_channels, List.mem_filter, List.mem_append,
    List.mem_filterMap]
  constructor
  · rintro ⟨hmem, hns⟩
    refine ⟨?_, hns⟩
    rcases hmem with ⟨r, ⟨hrc, hpre⟩, h3⟩ | ⟨r, ⟨hrc, hpre⟩, h2⟩
    · exact ⟨r, hrc, (amendedEntry_eq_some_iff r c).mpr ⟨hpre, Or.inl h3⟩⟩
    · exact ⟨r, hrc, (amendedEntry_eq_some_iff r c).mpr ⟨hpre, Or.inr h2⟩⟩
  · rintro ⟨⟨r, hr, hae⟩, hns⟩
    rcases (amendedEntry_eq_some_iff r c).mp hae with ⟨hpre, h3 | h2⟩
    · exact ⟨Or.inl ⟨r, ⟨hr, hpre⟩, h3⟩, hns⟩
    · exact ⟨Or.inr ⟨r, ⟨hr, hpre⟩, h2⟩, hns⟩

theorem run_eq_some_inv {cfg : PipelineCfg} {conf : IncidentsConf} {flavor : String}
    {d : FlavorData} {arch : String} {inc : Incident} {j : JobRequest}
    (h : run cfg conf flavor d arch inc = some j) :
    ∃ r, inc.revisions_with_fallback arch conf.version = some r ∧
      run_after_rev cfg conf flavor d arch inc r = some j := by
  unfold run at h
  split at h
  · exact absurd h (by simp)
  · split at h
    · exact absurd h (by simp)
    · split at h
      · exact absurd h (by simp)
      · split at h
        · exact absurd h (by simp)
        · split at h
          · exact absurd h (by simp)
          · exact ⟨_, by assumption, h⟩

theorem run_after_rev_eq_some_inv {cfg : PipelineCfg} {conf : IncidentsConf} {flavor : String}
    {d : FlavorData} {arch : String} {inc : Incident} {r : Nat} {j : JobRequest}
    (h : run_after_rev cfg conf flavor d arch inc r = some j) :
    (pyContains flavor "Kernel" = true → inc.livepatch = false →
        pyEndswith flavor "Azure" = false →
        ∃ k ∈ matched_issues d arch inc, k ∈ kernelIssueKeys)
    ∧ ∃ st, pc_enrich cfg (post_settings cfg conf flavor d arch inc r) = some st ∧
        j = { incident := inc.id, arch := arch, flavor := flavor, version := conf.version,
              withAggregate := computeWithAggregate d
                ((pre_agg_settings cfg conf flavor d arch inc r).map Prod.fst)
                conf.singlearch inc.packages,
              settings := st } := by
  unfold run_after_rev at h
  split at h
  · exact absurd h (by simp)
  · split at h
    · exact absurd h (by simp)
    · split at h
      · exact absurd h (by simp)
      · split at h
        · exact absurd h (by simp)
        · split at h
          · exact absurd h (by simp)
          · rename_i hgate
            refine ⟨?_, ?_⟩
            · intro hk hl ha
              by_contra hno
              push_neg at hno
              apply hgate
              simp only [hk, hl, ha, Bool.not_false, Bool.true_and, Bool.and_eq_true,
                List.all_eq_true]
              intro k hkm
              simp only [Bool.not_eq_true']
              exact Bool.eq_false_iff.mpr (fun hc => hno k hkm (List.mem_of_elem_eq_true hc))
            · split at h
              · exact absurd h (by simp)
              · exact ⟨_, by assumption, (Option.some.inj h).symm⟩

theorem contains_true_iff_mem {l : List String} {a : String} :
    l.contains a = true ↔ a ∈ l :=
  ⟨List.mem_of_elem_eq_true, List.elem_eq_true_of_mem⟩

theorem bool_single_iff (packages singlearch : List String) :
    (packages.any (fun p => singlearch.contains p) = true) ↔ ∃ p ∈ packages, p ∈ singlearch := by
  simp [List.any_eq_true, contains_true_iff_mem]

theorem bool_pos_iff (pos keys : List String) :
    ((!pos.isEmpty && pos.any (fun k => keys.contains k)) = true) ↔
      (pos ≠ [] ∧ ∃ k ∈ pos, k ∈ keys) := by
  simp [List.any_eq_true, contains_true_iff_mem, List.isEmpty_eq_false, List.isEmpty_iff]

theorem bool_neg_iff (neg keys : List String) :
    ((!neg.isEmpty && neg.all (fun k => !keys.contains k)) = true) ↔
      (neg ≠ [] ∧ ∀ k ∈ neg, k ∉ keys) := by
  simp [List.all_eq_true, List.isEmpty_iff, contains_true_iff_mem]

theorem bool_both_iff (pos neg : List String) :
    ((!(!neg.isEmpty && !pos.isEmpty)) = true) ↔ ¬(pos ≠ [] ∧ neg ≠ []) := by
  simp [List.isEmpty_iff, List.isEmpty_eq_false]
  tauto

theorem computeWithAggregate_false_iff (d : FlavorData) (keys singlearch packages : List String) :
    computeWithAggregate d keys singlearch packages = false ↔
      ((d.aggregate_job = false ∧
         ((d.aggregate_check_true ≠ [] ∧ ∃ k ∈ d.aggregate_check_true, k ∈ keys) ∨
          (d.aggregate_check_false ≠ [] ∧ ∀ k ∈ d.aggregate_check_false, k ∉ keys) ∨
          ¬(d.aggregate_check_true ≠ [] ∧ d.aggregate_check_false ≠ []))) ∨
       (∃ p ∈ packages, p ∈ singlearch)) := by
  unfold computeWithAggregate
  dsimp only
  by_cases hs : packages.any (fun p => singlearch.contains p) = true
  · rw [if_pos hs]
    exact iff_of_true rfl (Or.inr ((bool_single_iff _ _).mp hs))
  · rw [if_neg hs]
    have hsf : ¬∃ p ∈ packages, p ∈ singlearch := fun hex => hs ((bool_single_iff _ _).mpr hex)
    by_cases ha : d.aggregate_job = true
    · rw [if_neg (show ¬((!d.aggregate_job) = true) by simp [ha])]
      refine iff_of_false (by simp) ?_
      rintro (⟨haf, _⟩ | hex)
      · exact absurd haf (by simp [ha])
      · exact hsf hex
    · have haf : d.aggregate_job = false := by simpa using ha
      rw [if_pos (show (!d.aggregate_job) = true by simp [haf])]
      by_cases h3 : (!(!d.aggregate_check_false.isEmpty && !d.aggregate_check_true.isEmpty)) = true
      · rw [if_pos h3]
        exact iff_of_true rfl (Or.inl ⟨haf, Or.inr (Or.inr ((bool_both_iff _ _).mp h3))⟩)
      · rw [if_neg h3]
        have h3' : d.aggregate_check_true ≠ [] ∧ d.aggregate_check_false ≠ [] := by
          by_contra hc
          exact h3 ((bool_both_iff _ _).mpr hc)
        by_cases h2 : (!d.aggregate_check_false.isEmpty
            && d.aggregate_check_false.all (fun k => !keys.contains k)) = true
        · rw [if_pos h2]
          exact iff_of_true rfl (Or.inl ⟨haf, Or.inr (Or.inl ((bool_neg_iff _ _).mp h2))⟩)
        · rw [if_neg h2]
          by_cases h1 : (!d.aggregate_check_true.isEmpty
              && d.aggregate_check_true.any (fun k => keys.contains k)) = true
          · rw [if_pos h1]
            exact iff_of_true rfl (Or.inl ⟨haf, Or.inl ((bool_pos_iff _ _).mp h1)⟩)
          · rw [if_neg h1]
            refine iff_of_false (by simp) ?_
            rintro (⟨_, hcase⟩ | hex)
            · rcases hcase with hp1 | hp2 | hnb
              · exact h1 ((bool_pos_iff _ _).mpr hp1)
              · exact h2 ((bool_neg_iff _ _).mpr hp2)
              · exact hnb h3'
            · exact hsf hex

theorem run_after_rev_excl_irrelevant (cfg : PipelineCfg) (conf : IncidentsConf)
    (flavor : String) (d : FlavorData) (arch : String) (inc : Incident) (r : Nat)
    (e : Option (List String)) :
    run_after_rev cfg conf flavor { d with excluded_packages := e } arch inc r =
      run_after_rev cfg conf flavor d arch inc r := rfl

/-! ## Claim theorems -/

/-- C6: the incident livepatch flag is true iff some package starts with a
live-patch marker prefix (`kgraft-patch-` or `kernel-livepatch`) and no
package starts with `kernel-default`, `kernel-source` or `kernel-azure`;
the kernel-build check takes precedence, so
`["kernel-default", "kgraft-patch-x"]` gives false and `["kgraft-patch-x"]`
gives true. -/
theorem C6_livepatch_iff :
    (∀ packages : List String,
      Incident.is_livepatch packages =
        (packages.any (fun p =>
            pyStartswith p "kgraft-patch-" || pyStartswith p "kernel-livepatch")
          && !(packages.any (fun p =>
            pyStartswith p "kernel-default" || pyStartswith p "kernel-source"
              || pyStartswith p "kernel-azure"))))
    ∧ Incident.is_livepatch ["kernel-default", "kgraft-patch-x"] = false
    ∧ Incident.is_livepatch ["kgraft-patch-x"] = true := by
  refine ⟨?_, by decide, by decide⟩
  intro packages
  rw [Incident.is_livepatch, is_livepatch_go_eq]
  simp

/-- C5: `get_max_revision` returns the maximum revision seen across the
group's repositories (0 when the group is empty or every repository was
skipped); an HTTP non-success skips only that repository; a network error,
malformed body or missing revision field raises `NoRepoFound` for the whole
group; and the result is invariant under reordering of the repositories. -/
theorem C5_get_max_revision_policy {α : Type} (fetch : α → FetchOutcome) (repos : List α) :
    (get_max_revision fetch repos =
       if repos.any (fun x => (fetch x).isFatal) then Except.error RepoError.noRepoFound
       else Except.ok ((repos.filterMap (fun x => (fetch x).revisionOf)).foldl max 0))
    ∧ (∀ pre post x, fetch x = FetchOutcome.httpNotOk →
         get_max_revision fetch (pre ++ x :: post) = get_max_revision fetch (pre ++ post))
    ∧ (∀ l₂, repos.Perm l₂ → get_max_revision fetch repos = get_max_revision fetch l₂) := by
  refine ⟨get_max_revision_eq fetch repos, ?_, ?_⟩
  · intro pre post x hx
    rw [get_max_revision_eq, get_max_revision_eq]
    simp [List.any_append, List.any_cons, List.filterMap_append, List.filterMap_cons, hx,
      FetchOutcome.isFatal, FetchOutcome.revisionOf]
  · intro l₂ hp
    rw [get_max_revision_eq, get_max_revision_eq, any_perm hp,
      (hp.filterMap (fun x => (fetch x).revisionOf)).foldl_eq 0]

/-- C5 witness: two repositories with revisions 3 and 7 resolve to 7, in
either order. -/
theorem C5_get_max_revision_policy_witness :
    get_max_revision c5fetch [3, 7] = Except.ok 7
    ∧ get_max_revision c5fetch [7, 3] = Except.ok 7 := by
  have h := C5_get_max_revision_policy c5fetch [3, 7]
  refine ⟨?_, ?_⟩
  · rw [h.1]
    decide
  · rw [← h.2.2 [7, 3] (List.Perm.swap 7 3 []), h.1]
    decide

/-- C4 counterexample: the code keeps a two-field
`SLE-Module-Development-Tools-OBS` channel (the claim says that product is
always dropped) and keeps a channel whose prefix is `SUSE:Updates` without
the trailing colon (the claim keeps only strings prefixed
`SUSE:Updates:`). -/
theorem C4_channel_rules_counterexample :
    parse_channels ["SUSE:Updates:SLE-Module-Development-Tools-OBS:15"] =
      [{ product := "SLE-Module-Development-Tools-OBS", version := "15", arch := "x86_64" }]
    ∧ claimed_parse_channels ["SUSE:Updates:SLE-Module-Development-Tools-OBS:15"] = []
    ∧ parse_channels ["SUSE:UpdatesX:p:v:a"] =
      [{ product := "p", version := "v", arch := "a" }]
    ∧ claimed_parse_channels ["SUSE:UpdatesX:p:v:a"] = [] := by decide

/-- C4 (amended): the channel set derived by `Incident.__init__` is, as a
set, the per-string rule `amendedEntry` (prefix `SUSE:Updates` without a
colon; three fields as `(product, version, arch)` with the dev-tools module
dropped; two fields as `(product, version)` with arch `x86_64` and no
dev-tools filter) followed by dropping Manager-Server on aarch64; a
Manager-Server/aarch64 channel is never present. -/
theorem C4_channel_rules_amended (channels : List String) (c : Repos) :
    (c ∈ parse_channels channels ↔ c ∈ amended_parse_channels channels)
    ∧ (c ∈ parse_channels channels →
        ¬(c.product = "SLE-Module-SUSE-Manager-Server" ∧ c.arch = "aarch64")) := by
  refine ⟨parse_channels_mem_iff channels c, ?_⟩
  intro hc
  rintro ⟨hp, ha⟩
  have hns := (List.mem_filter.mp hc).2
  simp [notSumaAarch, hp, ha] at hns

/-- C4 witness: the amended rule applied to a concrete channel. -/
theorem C4_channel_rules_amended_witness :
    (({ product := "p", version := "v", arch := "a" } : Repos) ∈
        parse_channels ["SUSE:UpdatesX:p:v:a"])
    ∧ ¬((("p" : String)) = "SLE-Module-SUSE-Manager-Server" ∧ (("a" : String)) = "aarch64") := by
  refine ⟨by decide, ?_⟩
  exact (C4_channel_rules_amended ["SUSE:UpdatesX:p:v:a"]
    { product := "p", version := "v", arch := "a" }).2 (by decide)

/-- C8 counterexample: a channel starting with `SUSE:Updates` but not with
`SUSE:Updates:` still yields channels, so the `EmptyChannels` check passes
and construction does not fail with `EmptyChannels` as the claim requires
(it fails only later, with the `AttributeError` interface bug of the
revision step); and an incident with empty packages and empty channels
fails with `EmptyChannels`, not `EmptyPackages`. -/
theorem C8_empty_errors_counterexample :
    (["SUSE:UpdatesX:p:v:a"].all (fun r => !pyStartswith r "SUSE:Updates:") = true)
    ∧ c8rawOk.channels = ["SUSE:UpdatesX:p:v:a"]
    ∧ Incident.init c8fetch c8rawOk ≠ Except.error IncidentError.EmptyChannels
    ∧ Incident.init c8fetch c8rawOk = Except.error IncidentError.AttributeError
    ∧ c8rawEmptyBoth.packages = []
    ∧ Incident.init c8fetch c8rawEmptyBoth = Except.error IncidentError.EmptyChannels := by
  decide

/-- C8 (amended): when no channel starts with `SUSE:Updates` (equivalently,
when the parsed channel set is empty) construction fails with
`EmptyChannels`; when the parsed channel set is non-empty and the package
list is empty it fails with `EmptyPackages`. -/
theorem C8_empty_errors_amended (fetch : String → String × String → FetchOutcome)
    (raw : RawIncident) :
    ((∀ r ∈ raw.channels, pyStartswith r "SUSE:Updates" = false) →
      Incident.init fetch raw = Except.error IncidentError.EmptyChannels)
    ∧ (parse_channels raw.channels = [] →
      Incident.init fetch raw = Except.error IncidentError.EmptyChannels)
    ∧ (raw.packages = [] → parse_channels raw.channels ≠ [] →
      Incident.init fetch raw = Except.error IncidentError.EmptyPackagesError) := by
  have hempty : parse_channels raw.channels = [] →
      Incident.init fetch raw = Except.error IncidentError.EmptyChannels := by
    intro h
    unfold Incident.init
    simp [h]
  refine ⟨?_, hempty, ?_⟩
  · intro hpre
    apply hempty
    unfold parse_channels
    have hf : raw.channels.filter (fun r => pyStartswith r "SUSE:Updates") = [] := by
      rw [List.filter_eq_nil_iff]
      intro r hr
      simp [hpre r hr]
    simp [hf]
  · intro hpkg hne
    unfold Incident.init
    rw [if_neg (by simp [List.isEmpty_iff, hne])]
    simp [hpkg, pySortedByLen]

/-- C8 witness: the amended rule applied to concrete raw incidents. -/
theorem C8_empty_errors_amended_witness :
    (∀ r ∈ c8rawNoUpd.channels, pyStartswith r "SUSE:Updates" = false)
    ∧ Incident.init c8fetch c8rawNoUpd = Except.error IncidentError.EmptyChannels
    ∧ c8rawNoPkg.packages = []
    ∧ parse_channels c8rawNoPkg.channels ≠ []
    ∧ Incident.init c8fetch c8rawNoPkg = Except.error IncidentError.EmptyPackagesError := by
  refine ⟨by decide, (C8_empty_errors_amended c8fetch c8rawNoUpd).1 (by decide), by decide,
    by decide, (C8_empty_errors_amended c8fetch c8rawNoPkg).2.2 (by decide) (by decide)⟩

/-- C1 (code bug evaluation): with `override_priority = 5` the produced job
carries no `_PRIORITY` setting at all (the claim and spec say 5 is
written), while with `override_priority` unset and an emu incident the
produced job carries `_PRIORITY = 30` as the claim says. -/
theorem C1_priority_override_dead_code :
    c1dA.override_priority = 5
    ∧ c1inc.emu = true
    ∧ (Incidents.call plainCfg c1conf [c1inc]).map
        (fun j => (j.flavor, dget j.settings "_PRIORITY")) =
      [("FA", none), ("FB", some (SVal.n 30))] := by decide

/-- C9 (code bug evaluation): the scenario's incident can never be
constructed — `Incident._rev` hands plain `(product, version)` tuples to
`get_max_revision`, whose attribute accesses raise an uncaught
`AttributeError` (the second conjunct exhibits the non-empty tuple group
that triggers it) — so the staged code produces no job request for the
scenario; the packages-sorted-by-length leg holds of the sort itself, and
the scheduling pipeline, fed the incident value the spec's construction
would yield, produces exactly one job request with `REPOHASH` 7 and
`BUILD` `:42:bb` as the claim describes. -/
theorem C9_scenario_construction_crash :
    Incident.init c9fetch c9raw = Except.error IncidentError.AttributeError
    ∧ buildGroups (parse_channels c9raw.channels) =
        [({ arch := "x86_64", version := "1" }, [("FOO", "1")])]
    ∧ c9raw.packages = ["aaa", "bb"]
    ∧ pySortedByLen c9raw.packages = ["bb", "aaa"]
    ∧ lookupAV c9inc.revisions { arch := "x86_64", version := "1" } = some 7
    ∧ (Incidents.call plainCfg c9conf [c9inc]).map
        (fun j => (dget j.settings "REPOHASH", dget j.settings "BUILD")) =
      [(some (SVal.n 7), some (SVal.s ":42:bb"))] := by decide

/-- C2 (spec-modelled lookup): when `revisions_with_fallback` yields
nothing the candidate is skipped; when the exact `(arch, version)` entry is
absent the fallback is the first recorded entry with the same arch; and a
produced job's `REPOHASH` setting is the resolved revision (provided the
template and the cloud enrichers do not themselves overwrite the
`REPOHASH` key). -/
theorem C2_repohash_resolution (cfg : PipelineCfg) (conf : IncidentsConf) (flavor : String)
    (d : FlavorData) (arch : String) (inc : Incident) :
    (inc.revisions_with_fallback arch conf.version = none →
      run cfg conf flavor d arch inc = none)
    ∧ (lookupAV inc.revisions { arch := arch, version := conf.version } = none →
        inc.revisions_with_fallback arch conf.version =
          (inc.revisions.find? (fun e => e.1.arch == arch)).map (fun e => e.2))
    ∧ (∀ j r, run cfg conf flavor d arch inc = some j →
        inc.revisions_with_fallback arch conf.version = some r →
        (∀ kv ∈ d.issues, kv.1 ≠ "REPOHASH") →
        (∀ kv ∈ d.params_expand, kv.1 ≠ "REPOHASH") →
        (∀ s, dget (cfg.pc_tools s) "REPOHASH" = dget s "REPOHASH") →
        (∀ s, dget (cfg.pint s) "REPOHASH" = dget s "REPOHASH") →
        dget j.settings "REPOHASH" = some (SVal.n r)) := by
  refine ⟨?_, ?_, ?_⟩
  · intro hnone
    unfold run
    repeat' split
    all_goals first
      | rfl
      | exact absurd (by assumption) (by simp [hnone])
  · intro hmiss
    unfold Incident.revisions_with_fallback
    rw [hmiss]
  · intro j r hrun hfall hiss hpar ht hp
    obtain ⟨r', hfall', hafter⟩ := run_eq_some_inv hrun
    rw [hfall] at hfall'
    obtain rfl := Option.some.inj hfall'
    obtain ⟨_, st, hpc, hj⟩ := run_after_rev_eq_some_inv hafter
    rw [hj]
    exact (dget_pc_enrich cfg _ st "REPOHASH" ht hp hpc).trans
      (dget_post_repohash cfg conf flavor d arch inc r hiss hpar)

/-- C2 witness: the resolution rule applied to a concrete job. -/
theorem C2_repohash_resolution_witness :
    run plainCfg c2wConf "C2F" c2wD "x86_64" c2wInc = some c2wJob
    ∧ c2wInc.revisions_with_fallback "x86_64" "1" = some 9
    ∧ dget c2wJob.settings "REPOHASH" = some (SVal.n 9) := by
  refine ⟨by decide, by decide, ?_⟩
  exact (C2_repohash_resolution plainCfg c2wConf "C2F" c2wD "x86_64" c2wInc).2.2 c2wJob 9
    (by decide) (by decide) (by decide) (by decide) (fun s => rfl) (fun s => rfl)

/-- C3 counterexample: with both trigger sets configured and the positive
set meeting the produced settings keys (and no single-arch package), the
claim predicts demotion to false, but the produced job keeps
`withAggregate = true` because the template leaves `aggregate_job` at its
default. -/
theorem C3_with_aggregate_counterexample :
    c3xD.aggregate_check_true = ["ARCH"]
    ∧ c3xD.aggregate_check_false = ["NOPE"]
    ∧ (Incidents.call plainCfg c3xConf [c3xInc]).all
        (fun j => hasKey j.settings "ARCH") = true
    ∧ c3xInc.packages.all (fun p => !c3xConf.singlearch.contains p) = true
    ∧ (Incidents.call plainCfg c3xConf [c3xInc]).map (fun j => j.withAggregate) =
      [true] := by decide

/-- C3 (amended): a produced job's `withAggregate` flag is false exactly
when the template sets `aggregate_job` to false and (a configured positive
set meets the settings keys produced up to the `INCIDENT_REPO` write, or a
configured negative set is disjoint from them, or not both sets are
configured), or some incident package is in the single-arch set. -/
theorem C3_with_aggregate_amended (cfg : PipelineCfg) (conf : IncidentsConf)
    (flavor : String) (d : FlavorData) (arch : String) (inc : Incident) (r : Nat)
    (j : JobRequest)
    (hfall : inc.revisions_with_fallback arch conf.version = some r)
    (hrun : run cfg conf flavor d arch inc = some j) :
    j.withAggregate = false ↔
      ((d.aggregate_job = false ∧
         ((d.aggregate_check_true ≠ [] ∧ ∃ k ∈ d.aggregate_check_true,
            k ∈ (pre_agg_settings cfg conf flavor d arch inc r).map Prod.fst) ∨
          (d.aggregate_check_false ≠ [] ∧ ∀ k ∈ d.aggregate_check_false,
            k ∉ (pre_agg_settings cfg conf flavor d arch inc r).map Prod.fst) ∨
          ¬(d.aggregate_check_true ≠ [] ∧ d.aggregate_check_false ≠ []))) ∨
       (∃ p ∈ inc.packages, p ∈ conf.singlearch)) := by
  obtain ⟨r', hfall', hafter⟩ := run_eq_some_inv hrun
  rw [hfall] at hfall'
  obtain rfl := Option.some.inj hfall'
  obtain ⟨_, st, hpc, hj⟩ := run_after_rev_eq_some_inv hafter
  rw [hj]
  exact computeWithAggregate_false_iff d _ conf.singlearch inc.packages

/-- C3 witness: the amended rule applied to a concrete job whose template
sets `aggregate_job` to false with no trigger sets, so the flag is
demoted. -/
theorem C3_with_aggregate_amended_witness :
    c3wInc.revisions_with_fallback "x86_64" "1" = some 4
    ∧ run plainCfg c3wConf "F" c3wD "x86_64" c3wInc = some c3wJob
    ∧ (c3wJob.withAggregate = false ↔
      ((c3wD.aggregate_job = false ∧
         ((c3wD.aggregate_check_true ≠ [] ∧ ∃ k ∈ c3wD.aggregate_check_true,
            k ∈ (pre_agg_settings plainCfg c3wConf "F" c3wD "x86_64" c3wInc 4).map Prod.fst) ∨
          (c3wD.aggregate_check_false ≠ [] ∧ ∀ k ∈ c3wD.aggregate_check_false,
            k ∉ (pre_agg_settings plainCfg c3wConf "F" c3wD "x86_64" c3wInc 4).map Prod.fst) ∨
          ¬(c3wD.aggregate_check_true ≠ [] ∧ c3wD.aggregate_check_false ≠ []))) ∨
       (∃ p ∈ c3wInc.packages, p ∈ c3wConf.singlearch))) := by
  refine ⟨by decide, by decide, ?_⟩
  exact C3_with_aggregate_amended plainCfg c3wConf "F" c3wD "x86_64" c3wInc 4 c3wJob
    (by decide) (by decide)

/-- C7: when the flavor name contains `Kernel`, the incident is not a
livepatch and the flavor does not end in `Azure`, a job request is produced
only if one of the four kernel product-repository issue keys is among the
matched issue keys; otherwise the candidate yields no job request. -/
theorem C7_kernel_issue_gate (cfg : PipelineCfg) (conf : IncidentsConf) (flavor : String)
    (d : FlavorData) (arch : String) (inc : Incident)
    (hk : pyContains flavor "Kernel" = true)
    (hl : inc.livepatch = false)
    (ha : pyEndswith flavor "Azure" = false) :
    ((∀ k ∈ matched_issues d arch inc, k ∉ kernelIssueKeys) →
        run cfg conf flavor d arch inc = none)
    ∧ (∀ j, run cfg conf flavor d arch inc = some j →
        ∃ k ∈ matched_issues d arch inc, k ∈ kernelIssueKeys) := by
  have hmain : ∀ j, run cfg conf flavor d arch inc = some j →
      ∃ k ∈ matched_issues d arch inc, k ∈ kernelIssueKeys := by
    intro j hrun
    obtain ⟨r, _, hafter⟩ := run_eq_some_inv hrun
    exact (run_after_rev_eq_some_inv hafter).1 hk hl ha
  refine ⟨?_, hmain⟩
  intro hnone
  cases hr : run cfg conf flavor d arch inc with
  | none => rfl
  | some j =>
    obtain ⟨k, hkm, hkk⟩ := hmain j hr
    exact absurd hkk (hnone k hkm)

/-- C7 witness: the kernel gate applied to a concrete kernel-flavored
candidate whose only matched issue key is not a kernel key. -/
theorem C7_kernel_issue_gate_witness :
    pyContains "Kernel-Something" "Kernel" = true
    ∧ c7wInc.livepatch = false
    ∧ pyEndswith "Kernel-Something" "Azure" = false
    ∧ matched_issues c7wD "x86_64" c7wInc = ["MISC_TEST_ISSUES"]
    ∧ run plainCfg c7wConf "Kernel-Something" c7wD "x86_64" c7wInc = none := by
  refine ⟨by decide, by decide, by decide, by decide, ?_⟩
  exact (C7_kernel_issue_gate plainCfg c7wConf "Kernel-Something" c7wD "x86_64" c7wInc
    (by decide) (by decide) (by decide)).1 (by decide)

/-- C10: the package-matching predicate ignores the exact name
`kernel-livepatch-tools`: when every package matching a listed prefix is
exactly that name, `contains_package` is false, an allow-list built from
those prefixes skips the incident, and a deny-list built from them has no
effect on the outcome. -/
theorem C10_livepatch_tools_ignored (inc : Incident) (reqs : List String)
    (h : ∀ p ∈ inc.packages, ∀ rq ∈ reqs, pyStartswith p rq = true →
      p = "kernel-livepatch-tools") :
    Incident.contains_package inc reqs = false
    ∧ (∀ cfg conf flavor d arch, d.packages = some reqs →
        run cfg conf flavor d arch inc = none)
    ∧ (∀ cfg conf flavor d arch, d.excluded_packages = some reqs →
        run cfg conf flavor d arch inc =
          run cfg conf flavor { d with excluded_packages := none } arch inc) := by
  have hcp : Incident.contains_package inc reqs = false := by
    rw [Incident.contains_package]
    rw [List.any_eq_false]
    intro p hp
    rw [Bool.not_eq_true, List.any_eq_false]
    intro rq hrq
    rw [Bool.not_eq_true]
    by_cases hst : pyStartswith p rq = true
    · simp [hst, h p hp rq hrq hst]
    · have hst' : pyStartswith p rq = false := by simpa using hst
      simp [hst']
  refine ⟨hcp, ?_, ?_⟩
  · intro cfg conf flavor d arch hp
    simp [run, hp, hcp]
  · intro cfg conf flavor d arch he
    simp [run, he, hcp, run_after_rev_excl_irrelevant]

/-- C10 witness: an incident whose only package is exactly
`kernel-livepatch-tools` against the prefix list `["kernel-livepatch"]`. -/
theorem C10_livepatch_tools_ignored_witness :
    Incident.contains_package c10inc c10reqs = false
    ∧ c10d.packages = some c10reqs
    ∧ run plainCfg c10conf "F" c10d "x86_64" c10inc = none := by
  have h := C10_livepatch_tools_ignored c10inc c10reqs (by decide)
  exact ⟨h.1, rfl, h.2.1 plainCfg c10conf "F" c10d "x86_64" rfl⟩
